import Mathlib

/-!
Verification of pkg/proxy/util/iptables/traffic.go: the LocalTrafficDetector
abstraction and its four variants (no-op, by CIDR, by bridge interface,
by interface name pattern).

The CIDR constructor delegates parsing to netutils.ParseCIDRSloppy and
netutils.IsIPv6CIDR (package k8s.io/utils/net, a fork of the Go standard
library net parser that keeps the pre-1.17 tolerant behaviour); that package
is a dependency whose source is not part of this repository, so it is
modelled here from the spec's description of parsing ("parse the string as a
network prefix", "syntactically valid address/prefix-length pair") together
with the documented behaviour of the forked Go parser it names.
-/

namespace Traffic

/-- An IP address or mask as a byte sequence (each entry is in 0..255),
mirroring the Go slice type net.IP / net.IPMask. The empty list models a
nil slice. -/
abbrev IP := List Nat

/-- Modelled from the spec: result of parsing a network prefix, mirroring
net.IPNet (the masked network address together with its mask); from the
dependency k8s.io/utils/net which is not under src/. -/
structure IPNet where
  ip : IP
  mask : IP
deriving Repr, DecidableEq

/-- Modelled from the spec: overflow bound of the Go digit parsers dtoi and
xtoi (0xFFFFFF), from the forked net parser dependency not under src/. -/
def big : Nat := 0xFFFFFF

/-- Modelled from the spec: loop of the decimal field parser dtoi from the
forked net parser dependency not under src/. The accumulator n is the value
read so far and i the number of characters consumed. -/
def dtoiAux : List Char → Nat → Nat → Nat × Nat × Bool
  | [], n, i => if i = 0 then (0, 0, false) else (n, i, true)
  | c :: rest, n, i =>
    if '0' ≤ c ∧ c ≤ '9' then
      let n2 := n * 10 + (c.toNat - '0'.toNat)
      if n2 ≥ big then (big, i, false) else dtoiAux rest n2 (i + 1)
    else if i = 0 then (0, 0, false) else (n, i, true)

/-- Modelled from the spec: the decimal field parser dtoi, returning the
value, the count of characters consumed and a success flag. -/
def dtoi (s : List Char) : Nat × Nat × Bool := dtoiAux s 0 0

/-- Modelled from the spec: loop of the hexadecimal field parser xtoi from
the forked net parser dependency not under src/. -/
def xtoiAux : List Char → Nat → Nat → Nat × Nat × Bool
  | [], n, i => if i = 0 then (0, 0, false) else (n, i, true)
  | c :: rest, n, i =>
    if '0' ≤ c ∧ c ≤ '9' then
      let n2 := n * 16 + (c.toNat - '0'.toNat)
      if n2 ≥ big then (0, i, false) else xtoiAux rest n2 (i + 1)
    else if 'a' ≤ c ∧ c ≤ 'f' then
      let n2 := n * 16 + (c.toNat - 'a'.toNat + 10)
      if n2 ≥ big then (0, i, false) else xtoiAux rest n2 (i + 1)
    else if 'A' ≤ c ∧ c ≤ 'F' then
      let n2 := n * 16 + (c.toNat - 'A'.toNat + 10)
      if n2 ≥ big then (0, i, false) else xtoiAux rest n2 (i + 1)
    else if i = 0 then (0, 0, false) else (n, i, true)

/-- Modelled from the spec: the hexadecimal field parser xtoi. -/
def xtoi (s : List Char) : Nat × Nat × Bool := xtoiAux s 0 0

/-- Modelled from the spec: the 12-byte marker of an IPv4 address stored in
16-byte form (v4InV6Prefix of the net package, not under src/). -/
def v4InV6Pfx : List Nat := [0, 0, 0, 0, 0, 0, 0, 0, 0, 0, 255, 255]

/-- Modelled from the spec: net.IPv4, building the 16-byte form of an IPv4
address. -/
def ipv4 (a b c d : Nat) : IP := v4InV6Pfx ++ [a, b, c, d]

/-- Modelled from the spec: one dotted-decimal field of an IPv4 address:
a decimal number of value at most 255, with leading zeros tolerated (the
leading-zero rejection of Go 1.17 is removed in the fork). -/
def parseIPv4Field (s : List Char) : Option (Nat × List Char) :=
  let (n, c, ok) := dtoi s
  if ok ∧ n ≤ 255 then some (n, s.drop c) else none

/-- Modelled from the spec: consume a literal dot between IPv4 fields. -/
def expectDot : List Char → Option (List Char)
  | c :: rest => if c = '.' then some rest else none
  | [] => none

/-- Modelled from the spec: parseIPv4 of the forked net parser (not under
src/): exactly four dot-separated decimal fields consuming the whole string,
returned in 16-byte form. -/
def parseIPv4 (s : List Char) : Option IP := do
  let (a, s1) ← parseIPv4Field s
  let s2 ← expectDot s1
  let (b, s3) ← parseIPv4Field s2
  let s4 ← expectDot s3
  let (c, s5) ← parseIPv4Field s4
  let s6 ← expectDot s5
  let (d, s7) ← parseIPv4Field s6
  if s7 = [] then some (ipv4 a b c d) else none

/-- Modelled from the spec: main loop of parseIPv6 of the forked net parser
(not under src/). The fuel counts the remaining 16-bit groups (at most 8);
acc holds the bytes written so far and ell the position of the ellipsis when
one was seen. Returns the unconsumed input, the bytes and the ellipsis. -/
def parseIPv6Loop : Nat → List Char → List Nat → Option Nat →
    Option (List Char × List Nat × Option Nat)
  | 0, s, acc, ell => some (s, acc, ell)
  | g + 1, s, acc, ell =>
    let (n, c, ok) := xtoi s
    if ¬ok ∨ n > 0xFFFF then none
    else if s.get? c = some '.' then
      if ell = none ∧ acc.length ≠ 12 then none
      else if acc.length + 4 > 16 then none
      else
        match parseIPv4 s with
        | none => none
        | some ip4 => some ([], acc ++ ip4.drop 12, ell)
    else
      let acc2 := acc ++ [n / 256, n % 256]
      let s2 := s.drop c
      if s2 = [] then some ([], acc2, ell)
      else if s2.head? ≠ some ':' ∨ s2.length = 1 then none
      else
        let s3 := s2.drop 1
        if s3.head? = some ':' then
          if ell ≠ none then none
          else
            let s4 := s3.drop 1
            if s4 = [] then some ([], acc2, some acc2.length)
            else parseIPv6Loop g s4 acc2 (some acc2.length)
        else parseIPv6Loop g s3 acc2 ell

/-- Modelled from the spec: post-processing of the parseIPv6 loop: the whole
string must be consumed; a short result is completed by expanding the
ellipsis with zero bytes; a full result must not also carry an ellipsis. -/
def parseIPv6Core (s : List Char) (ell0 : Option Nat) : Option IP :=
  match parseIPv6Loop 8 s [] ell0 with
  | none => none
  | some (rest, acc, ell) =>
    if rest ≠ [] then none
    else if acc.length < 16 then
      match ell with
      | none => none
      | some e => some (acc.take e ++ List.replicate (16 - acc.length) 0 ++ acc.drop e)
    else if ell ≠ none then none
    else some acc

/-- Modelled from the spec: parseIPv6 of the forked net parser (not under
src/), handling a leading double colon before entering the loop. -/
def parseIPv6 (s : List Char) : Option IP :=
  if s.take 2 = [':', ':'] then
    if s.drop 2 = [] then some (List.replicate 16 0)
    else parseIPv6Core (s.drop 2) (some 0)
  else parseIPv6Core s none

/-- Modelled from the spec: index of the last occurrence of a character. -/
def lastIdxOf (c : Char) : List Char → Option Nat
  | [] => none
  | a :: rest =>
    match lastIdxOf c rest with
    | some i => some (i + 1)
    | none => if a = c then some 0 else none

/-- Modelled from the spec: splitHostZone of the forked net parser (not
under src/): split off an IPv6 zone identifier after the last percent sign,
when that sign is not the first character. -/
def splitHostZone (s : List Char) : List Char × List Char :=
  match lastIdxOf '%' s with
  | some i => if i > 0 then (s.take i, s.drop (i + 1)) else (s, [])
  | none => (s, [])

/-- Modelled from the spec: parseIPv6Zone, parsing the host part and
discarding the zone. -/
def parseIPv6Zone (s : List Char) : Option IP :=
  parseIPv6 (splitHostZone s).1

/-- Modelled from the spec: one byte of net.CIDRMask, given how many mask
bits remain at this byte. -/
def maskByte (n : Nat) : Nat := if n ≥ 8 then 255 else 255 - 255 >>> n

/-- Modelled from the spec: net.CIDRMask, a mask of bits/8 bytes whose first
ones bits are set (the callers below always supply 0 ≤ ones ≤ bits, the
only range reaching this call in the parser). -/
def cidrMask (ones bits : Nat) : IP :=
  (List.range (bits / 8)).map fun i => maskByte (ones - 8 * i)

/-- Modelled from the spec: whether every byte of a mask slice is 0xff. -/
def allFF (l : List Nat) : Bool := l.all (· == 255)

/-- Modelled from the spec: net.IP.Mask (not under src/): after adapting a
16-byte mask to a 4-byte address or a 16-byte IPv4-in-IPv6 address to a
4-byte mask, intersect byte by byte; mismatched lengths yield nil. -/
def ipMask (ip m : IP) : Option IP :=
  let m2 := if m.length = 16 ∧ ip.length = 4 ∧ allFF (m.take 12) then m.drop 12 else m
  let ip2 := if m2.length = 4 ∧ ip.length = 16 ∧ ip.take 12 = v4InV6Pfx then ip.drop 12 else ip
  if ip2.length ≠ m2.length then none
  else some (List.zipWith (fun a b => a &&& b) ip2 m2)

/-- Modelled from the spec: net.IP.To4 (not under src/): a 4-byte address is
returned as is; a 16-byte IPv4-in-IPv6 address is shortened to 4 bytes; any
other address yields nil. -/
def to4 (ip : IP) : Option IP :=
  if ip.length = 4 then some ip
  else if ip.length = 16 ∧ (ip.take 10).all (· == 0) ∧ ip.get? 10 = some 255 ∧ ip.get? 11 = some 255
  then some (ip.drop 12)
  else none

/-- Modelled from the spec: netutils.IsIPv6 (k8s.io/utils/net, not under
src/): a non-nil address with no 4-byte form. -/
def isIPv6 (ip : IP) : Bool := ¬ip.isEmpty ∧ (to4 ip).isNone

/-- Modelled from the spec: netutils.IsIPv6CIDR, the address family of the
parsed prefix. -/
def isIPv6CIDR (n : IPNet) : Bool := isIPv6 n.ip

/-- Modelled from the spec: parseCIDR of the forked net parser (not under
src/): split at the first slash, parse the address part first as IPv4 and
otherwise as IPv6 with optional zone, parse the entire mask part as a
decimal prefix length bounded by the address width, and return the address
together with the masked network and its mask. (IP.Mask cannot fail on
these lengths, so the nil default is never taken.) -/
def parseCIDR (s : List Char) : Option (IP × IPNet) :=
  match s.findIdx? (· == '/') with
  | none => none
  | some i =>
    let addr := s.take i
    let maskS := s.drop (i + 1)
    let (ipo, iplen) :=
      match parseIPv4 addr with
      | some ip => (some ip, 4)
      | none => (parseIPv6Zone addr, 16)
    let (n, c, ok) := dtoi maskS
    match ipo with
    | none => none
    | some ip =>
      if ¬ok ∨ c ≠ maskS.length ∨ n > 8 * iplen then none
      else
        let m := cidrMask n (8 * iplen)
        some (ip, ⟨(ipMask ip m).getD [], m⟩)

/-- Modelled from the spec: netutils.ParseCIDRSloppy (k8s.io/utils/net, not
under src/), the entry point used by NewDetectLocalByCIDR. -/
def parseCIDRSloppy (s : String) : Option (IP × IPNet) := parseCIDR s.data

/-- The LocalTrafficDetector values of traffic.go, one constructor per
implementing type: noOpLocalDetector (no fields), detectLocalByCIDR,
detectLocalByBridgeInterface and detectLocalByInterfaceNamePrefix, each of
the latter three holding its four precomputed token sequences ifLocal,
ifNotLocal, ifLocalNFT and ifNotLocalNFT. -/
inductive LocalTrafficDetector where
  | noOp
  | byCIDR (ifLocal ifNotLocal ifLocalNFT ifNotLocalNFT : List String)
  | byBridgeInterface (ifLocal ifNotLocal ifLocalNFT ifNotLocalNFT : List String)
  | byIfaceNamePfx (ifLocal ifNotLocal ifLocalNFT ifNotLocalNFT : List String)
deriving Repr, DecidableEq

/-- The errors the constructors of traffic.go can return: the ParseError
produced by netutils.ParseCIDRSloppy (carrying the rejected text) and the
fmt.Errorf configuration errors (carrying their message). -/
inductive ConstructionError where
  | parseError (text : String)
  | invalidConfig (msg : String)
deriving Repr, DecidableEq

/-- IsImplemented: false on the no-op receiver, true on each of the three
real receivers (traffic.go, the four IsImplemented methods). -/
def IsImplemented : LocalTrafficDetector → Bool
  | .noOp => false
  | .byCIDR _ _ _ _ => true
  | .byBridgeInterface _ _ _ _ => true
  | .byIfaceNamePfx _ _ _ _ => true

/-- IfLocal: nil on the no-op receiver (modelled as the empty sequence, as
a nil Go slice has no elements), the stored ifLocal field otherwise. -/
def IfLocal : LocalTrafficDetector → List String
  | .noOp => []
  | .byCIDR a _ _ _ => a
  | .byBridgeInterface a _ _ _ => a
  | .byIfaceNamePfx a _ _ _ => a

/-- IfNotLocal: nil on the no-op receiver, the stored field otherwise. -/
def IfNotLocal : LocalTrafficDetector → List String
  | .noOp => []
  | .byCIDR _ a _ _ => a
  | .byBridgeInterface _ a _ _ => a
  | .byIfaceNamePfx _ a _ _ => a

/-- IfLocalNFT: nil on the no-op receiver, the stored field otherwise. -/
def IfLocalNFT : LocalTrafficDetector → List String
  | .noOp => []
  | .byCIDR _ _ a _ => a
  | .byBridgeInterface _ _ a _ => a
  | .byIfaceNamePfx _ _ a _ => a

/-- IfNotLocalNFT: nil on the no-op receiver, the stored field otherwise. -/
def IfNotLocalNFT : LocalTrafficDetector → List String
  | .noOp => []
  | .byCIDR _ _ _ a => a
  | .byBridgeInterface _ _ _ a => a
  | .byIfaceNamePfx _ _ _ a => a

/-- NewNoOpLocalDetector of traffic.go: no parameters, always returns the
no-op value. -/
def NewNoOpLocalDetector : LocalTrafficDetector := .noOp

/-- NewDetectLocalByCIDR of traffic.go: parse the CIDR string sloppily,
propagate the parse error, otherwise pick the nftables family from the
parsed prefix and precompute the four token sequences, each embedding the
original input string. -/
def NewDetectLocalByCIDR (cidr : String) : Except ConstructionError LocalTrafficDetector :=
  match parseCIDRSloppy cidr with
  | none => .error (.parseError cidr)
  | some (_, parsed) =>
    let nftFamily := if isIPv6CIDR parsed then "ip6" else "ip"
    .ok (.byCIDR ["-s", cidr] ["!", "-s", cidr]
      [nftFamily, "saddr", cidr] [nftFamily, "saddr", "!=", cidr])

/-- NewDetectLocalByBridgeInterface of traffic.go: reject an empty name,
otherwise precompute the four token sequences. -/
def NewDetectLocalByBridgeInterface (interfaceName : String) :
    Except ConstructionError LocalTrafficDetector :=
  if interfaceName.length = 0 then .error (.invalidConfig "no bridge interface name set")
  else .ok (.byBridgeInterface ["-i", interfaceName] ["!", "-i", interfaceName]
    ["iif", interfaceName] ["iif", "!=", interfaceName])

/-- NewDetectLocalByInterfaceNamePrefix of traffic.go: reject an empty
pattern, otherwise precompute the four token sequences, appending the
legacy wildcard to the legacy tokens and the nft wildcard to the nft
tokens. -/
def NewDetectLocalByInterfaceNamePrefix ( interfacePfx : String) :
    Except ConstructionError LocalTrafficDetector :=
  if interfacePfx.length = 0 then .error (.invalidConfig "no interface prefix set")
  else .ok (.byIfaceNamePfx ["-i", interfacePfx ++ "+"] ["!", "-i", interfacePfx ++ "+"]
    ["iif", interfacePfx ++ "*"] ["iif", "!=", interfacePfx ++ "*"])

/-- A call of the IsImplemented method in state-passing form: the Go method
only reads its receiver, so the call returns the result together with the
unchanged receiver. -/
def callIsImplemented (d : LocalTrafficDetector) : Bool × LocalTrafficDetector :=
  (IsImplemented d, d)

/-- A call of the IfLocal method in state-passing form (read-only
receiver). -/
def callIfLocal (d : LocalTrafficDetector) : List String × LocalTrafficDetector :=
  (IfLocal d, d)

/-- A call of the IfNotLocal method in state-passing form (read-only
receiver). -/
def callIfNotLocal (d : LocalTrafficDetector) : List String × LocalTrafficDetector :=
  (IfNotLocal d, d)

/-- A call of the IfLocalNFT method in state-passing form (read-only
receiver). -/
def callIfLocalNFT (d : LocalTrafficDetector) : List String × LocalTrafficDetector :=
  (IfLocalNFT d, d)

/-- A call of the IfNotLocalNFT method in state-passing form (read-only
receiver). -/
def callIfNotLocalNFT (d : LocalTrafficDetector) : List String × LocalTrafficDetector :=
  (IfNotLocalNFT d, d)

/-- Helper: a string has length zero exactly when it is the empty string. -/
theorem string_length_zero_iff (s : String) : s.length = 0 ↔ s = "" := by
  cases s with
  | mk l =>
    constructor
    · intro h
      have hl : l = [] := by simpa [String.length] using h
      simp [hl]
    · intro h
      have hl : l = [] := congrArg String.data h
      simp [String.length, hl]

/-- Helper: inversion of NewDetectLocalByCIDR: any successfully built
detector records exactly the four token sequences of traffic.go, with the
nftables family chosen from the parsed prefix. -/
theorem newDetectLocalByCIDR_ok {c : String} {d : LocalTrafficDetector}
    (h : NewDetectLocalByCIDR c = .ok d) :
    ∃ ip parsed, parseCIDRSloppy c = some (ip, parsed) ∧
      d = .byCIDR ["-s", c] ["!", "-s", c]
        [if isIPv6CIDR parsed then "ip6" else "ip", "saddr", c]
        [if isIPv6CIDR parsed then "ip6" else "ip", "saddr", "!=", c] := by
  unfold NewDetectLocalByCIDR at h
  cases hp : parseCIDRSloppy c with
  | none => rw [hp] at h; simp at h
  | some pr =>
    obtain ⟨ip, parsed⟩ := pr
    rw [hp] at h
    simp only [Except.ok.injEq] at h
    exact ⟨ip, parsed, rfl, h.symm⟩

/-- Helper: inversion of NewDetectLocalByBridgeInterface. -/
theorem newDetectLocalByBridgeInterface_ok {n : String} {d : LocalTrafficDetector}
    (h : NewDetectLocalByBridgeInterface n = .ok d) :
    d = .byBridgeInterface ["-i", n] ["!", "-i", n] ["iif", n] ["iif", "!=", n] := by
  unfold NewDetectLocalByBridgeInterface at h
  split at h
  · simp at h
  · simp only [Except.ok.injEq] at h
    exact h.symm

/-- Helper: inversion of NewDetectLocalByInterfaceNamePrefix. -/
theorem newDetectLocalByIfaceNamePfx_ok {p : String} {d : LocalTrafficDetector}
    (h : NewDetectLocalByInterfaceNamePrefix p = .ok d) :
    d = .byIfaceNamePfx ["-i", p ++ "+"] ["!", "-i", p ++ "+"]
      ["iif", p ++ "*"] ["iif", "!=", p ++ "*"] := by
  unfold NewDetectLocalByInterfaceNamePrefix at h
  split at h
  · simp at h
  · simp only [Except.ok.injEq] at h
    exact h.symm

/-- C1: for every CIDR string accepted by construction, NewDetectLocalByCIDR
returns a detector whose four token sequences are exactly
legacy-local = [-s, cidr], legacy-not-local = [!, -s, cidr],
nft-local = [family, saddr, cidr] and
nft-not-local = [family, saddr, !=, cidr], where family is ip when the
parsed prefix is IPv4 and ip6 when it is IPv6, and cidr is the original
input string. -/
theorem claim_C1 (cidr : String) (d : LocalTrafficDetector)
    (h : NewDetectLocalByCIDR cidr = .ok d) :
    ∃ ip parsed, parseCIDRSloppy cidr = some (ip, parsed) ∧
      IfLocal d = ["-s", cidr] ∧
      IfNotLocal d = ["!", "-s", cidr] ∧
      IfLocalNFT d = [if isIPv6CIDR parsed then "ip6" else "ip", "saddr", cidr] ∧
      IfNotLocalNFT d = [if isIPv6CIDR parsed then "ip6" else "ip", "saddr", "!=", cidr] := by
  obtain ⟨ip, parsed, hp, hd⟩ := newDetectLocalByCIDR_ok h
  subst hd
  exact ⟨ip, parsed, hp, rfl, rfl, rfl, rfl⟩

/-- Witness for C1 at the IPv4 input 10.0.0.0/8 (parsed prefix IPv4, so the
family keyword is ip). -/
theorem claim_C1_witness :
    ∃ ip parsed, parseCIDRSloppy "10.0.0.0/8" = some (ip, parsed) ∧
      IfLocal (.byCIDR ["-s", "10.0.0.0/8"] ["!", "-s", "10.0.0.0/8"]
          ["ip", "saddr", "10.0.0.0/8"] ["ip", "saddr", "!=", "10.0.0.0/8"]) =
        ["-s", "10.0.0.0/8"] ∧
      IfNotLocal (.byCIDR ["-s", "10.0.0.0/8"] ["!", "-s", "10.0.0.0/8"]
          ["ip", "saddr", "10.0.0.0/8"] ["ip", "saddr", "!=", "10.0.0.0/8"]) =
        ["!", "-s", "10.0.0.0/8"] ∧
      IfLocalNFT (.byCIDR ["-s", "10.0.0.0/8"] ["!", "-s", "10.0.0.0/8"]
          ["ip", "saddr", "10.0.0.0/8"] ["ip", "saddr", "!=", "10.0.0.0/8"]) =
        [if isIPv6CIDR parsed then "ip6" else "ip", "saddr", "10.0.0.0/8"] ∧
      IfNotLocalNFT (.byCIDR ["-s", "10.0.0.0/8"] ["!", "-s", "10.0.0.0/8"]
          ["ip", "saddr", "10.0.0.0/8"] ["ip", "saddr", "!=", "10.0.0.0/8"]) =
        [if isIPv6CIDR parsed then "ip6" else "ip", "saddr", "!=", "10.0.0.0/8"] :=
  claim_C1 "10.0.0.0/8"
    (.byCIDR ["-s", "10.0.0.0/8"] ["!", "-s", "10.0.0.0/8"]
      ["ip", "saddr", "10.0.0.0/8"] ["ip", "saddr", "!=", "10.0.0.0/8"]) (by rfl)

/-- C2: NewDetectLocalByCIDR fails with a ParseError exactly when the input
is not a syntactically valid address/prefix-length pair (as decided by the
sloppy CIDR parser), no detector value is produced on failure, every
syntactically valid pair succeeds, and the concrete input not-a-cidr
fails. -/
theorem claim_C2 (cidr : String) :
    ((∃ e, NewDetectLocalByCIDR cidr = .error e) ↔ parseCIDRSloppy cidr = none) ∧
    (NewDetectLocalByCIDR cidr = .error (.parseError cidr) ↔ parseCIDRSloppy cidr = none) ∧
    ((∃ d, NewDetectLocalByCIDR cidr = .ok d) ↔ ¬parseCIDRSloppy cidr = none) ∧
    NewDetectLocalByCIDR "not-a-cidr" = .error (.parseError "not-a-cidr") := by
  refine ⟨?_, ?_, ?_, by rfl⟩ <;>
    · unfold NewDetectLocalByCIDR
      cases hp : parseCIDRSloppy cidr with
      | none => simp
      | some pr =>
        obtain ⟨ip, parsed⟩ := pr
        simp

/-- Witness for C2: the malformed input not-a-cidr is rejected with a
ParseError carrying the input text. -/
theorem claim_C2_witness :
    NewDetectLocalByCIDR "not-a-cidr" = .error (.parseError "not-a-cidr") :=
  (claim_C2 "x").2.2.2

/-- C3: for every successfully constructed non-no-op detector and both
syntax families, the not-local sequence is the negation of the local
sequence over the same match target: the legacy not-local sequence prepends
the token ! to the legacy local sequence, and the nft not-local sequence
inserts the token != immediately before the final operand of the nft local
sequence. -/
theorem claim_C3 (d : LocalTrafficDetector)
    (h : (∃ c, NewDetectLocalByCIDR c = .ok d) ∨
         (∃ n, NewDetectLocalByBridgeInterface n = .ok d) ∨
         (∃ p, NewDetectLocalByInterfaceNamePrefix p = .ok d)) :
    IfNotLocal d = "!" :: IfLocal d ∧
    ∃ pre tgt, IfLocalNFT d = pre ++ [tgt] ∧ IfNotLocalNFT d = pre ++ ["!=", tgt] := by
  rcases h with ⟨c, hc⟩ | ⟨n, hn⟩ | ⟨p, hp⟩
  · obtain ⟨ip, parsed, -, hd⟩ := newDetectLocalByCIDR_ok hc
    subst hd
    exact ⟨rfl, ⟨[if isIPv6CIDR parsed then "ip6" else "ip", "saddr"], c, rfl, rfl⟩⟩
  · have hd := newDetectLocalByBridgeInterface_ok hn
    subst hd
    exact ⟨rfl, ⟨["iif"], n, rfl, rfl⟩⟩
  · have hd := newDetectLocalByIfaceNamePfx_ok hp
    subst hd
    exact ⟨rfl, ⟨["iif"], p ++ "*", rfl, rfl⟩⟩

/-- Witness for C3 at the bridge-interface detector built from cbr0. -/
theorem claim_C3_witness :
    IfNotLocal (.byBridgeInterface ["-i", "cbr0"] ["!", "-i", "cbr0"]
        ["iif", "cbr0"] ["iif", "!=", "cbr0"]) =
      "!" :: IfLocal (.byBridgeInterface ["-i", "cbr0"] ["!", "-i", "cbr0"]
        ["iif", "cbr0"] ["iif", "!=", "cbr0"]) ∧
    ∃ pre tgt,
      IfLocalNFT (.byBridgeInterface ["-i", "cbr0"] ["!", "-i", "cbr0"]
          ["iif", "cbr0"] ["iif", "!=", "cbr0"]) = pre ++ [tgt] ∧
      IfNotLocalNFT (.byBridgeInterface ["-i", "cbr0"] ["!", "-i", "cbr0"]
          ["iif", "cbr0"] ["iif", "!=", "cbr0"]) = pre ++ ["!=", tgt] :=
  claim_C3 _ (Or.inr (Or.inl ⟨"cbr0", by rfl⟩))

/-- C4: NewNoOpLocalDetector takes no parameters and never fails (it is a
total value), and on its result all four token accessors return the empty
sequence. -/
theorem claim_C4 :
    IfLocal NewNoOpLocalDetector = [] ∧ IfNotLocal NewNoOpLocalDetector = [] ∧
    IfLocalNFT NewNoOpLocalDetector = [] ∧ IfNotLocalNFT NewNoOpLocalDetector = [] :=
  ⟨rfl, rfl, rfl, rfl⟩

/-- C5: for every non-empty interface name n, NewDetectLocalByBridgeInterface
returns a detector with legacy-local = [-i, n],
legacy-not-local = [!, -i, n], nft-local = [iif, n] and
nft-not-local = [iif, !=, n]. -/
theorem claim_C5 (n : String) (h : n ≠ "") :
    ∃ d, NewDetectLocalByBridgeInterface n = .ok d ∧
      IfLocal d = ["-i", n] ∧ IfNotLocal d = ["!", "-i", n] ∧
      IfLocalNFT d = ["iif", n] ∧ IfNotLocalNFT d = ["iif", "!=", n] := by
  have hl : ¬n.length = 0 := fun hz => h ((string_length_zero_iff n).mp hz)
  refine ⟨.byBridgeInterface ["-i", n] ["!", "-i", n] ["iif", n] ["iif", "!=", n],
    ?_, rfl, rfl, rfl, rfl⟩
  unfold NewDetectLocalByBridgeInterface
  rw [if_neg hl]

/-- Witness for C5 at the name cbr0: legacy-local = [-i, cbr0] and
nft-local = [iif, cbr0]. -/
theorem claim_C5_witness :
    ∃ d, NewDetectLocalByBridgeInterface "cbr0" = .ok d ∧
      IfLocal d = ["-i", "cbr0"] ∧ IfNotLocal d = ["!", "-i", "cbr0"] ∧
      IfLocalNFT d = ["iif", "cbr0"] ∧ IfNotLocalNFT d = ["iif", "!=", "cbr0"] :=
  claim_C5 "cbr0" (by decide)

/-- C6: for every non-empty pattern string p, NewDetectLocalByInterfaceNamePrefix
returns a detector whose legacy sequences append a plus wildcard to p and
whose nft sequences append a star wildcard to p:
legacy-local = [-i, p+], legacy-not-local = [!, -i, p+],
nft-local = [iif, p*], nft-not-local = [iif, !=, p*]. -/
theorem claim_C6 (p : String) (h : p ≠ "") :
    ∃ d, NewDetectLocalByInterfaceNamePrefix p = .ok d ∧
      IfLocal d = ["-i", p ++ "+"] ∧ IfNotLocal d = ["!", "-i", p ++ "+"] ∧
      IfLocalNFT d = ["iif", p ++ "*"] ∧ IfNotLocalNFT d = ["iif", "!=", p ++ "*"] := by
  have hl : ¬p.length = 0 := fun hz => h ((string_length_zero_iff p).mp hz)
  refine ⟨.byIfaceNamePfx ["-i", p ++ "+"] ["!", "-i", p ++ "+"]
    ["iif", p ++ "*"] ["iif", "!=", p ++ "*"], ?_, rfl, rfl, rfl, rfl⟩
  unfold NewDetectLocalByInterfaceNamePrefix
  rw [if_neg hl]

/-- Witness for C6 at the pattern veth: legacy-local ends with veth+ and
nft-local ends with veth*. -/
theorem claim_C6_witness :
    ∃ d, NewDetectLocalByInterfaceNamePrefix "veth" = .ok d ∧
      IfLocal d = ["-i", "veth" ++ "+"] ∧ IfNotLocal d = ["!", "-i", "veth" ++ "+"] ∧
      IfLocalNFT d = ["iif", "veth" ++ "*"] ∧ IfNotLocalNFT d = ["iif", "!=", "veth" ++ "*"] :=
  claim_C6 "veth" (by decide)

/-- C7: NewDetectLocalByBridgeInterface fails with the InvalidConfigError
message no-bridge-interface-name-set exactly on the empty string, and
NewDetectLocalByInterfaceNamePrefix fails with the InvalidConfigError
message no-interface-prefix-set exactly on the empty string; every
non-empty input succeeds, and on failure no detector value is produced. -/
theorem claim_C7 (s : String) :
    (( NewDetectLocalByBridgeInterface s =
        .error (.invalidConfig "no bridge interface name set")) ↔ s = "") ∧
    (( NewDetectLocalByInterfaceNamePrefix s =
        .error (.invalidConfig "no interface prefix set")) ↔ s = "") ∧
    ((∃ d, NewDetectLocalByBridgeInterface s = .ok d) ↔ ¬s = "") ∧
    ((∃ d, NewDetectLocalByInterfaceNamePrefix s = .ok d) ↔ ¬s = "") := by
  by_cases hs : s = ""
  · subst hs
    refine ⟨?_, ?_, ?_, ?_⟩ <;>
      simp [ NewDetectLocalByBridgeInterface, NewDetectLocalByInterfaceNamePrefix]
  · have hl : ¬s.length = 0 := fun hz => hs ((string_length_zero_iff s).mp hz)
    refine ⟨?_, ?_, ?_, ?_⟩ <;>
      simp [ NewDetectLocalByBridgeInterface, NewDetectLocalByInterfaceNamePrefix, hl, hs]

/-- Witness for C7: the empty name is rejected with the bridge message, the
empty pattern with the interface-pattern message. -/
theorem claim_C7_witness :
    NewDetectLocalByBridgeInterface "" =
        .error (.invalidConfig "no bridge interface name set") ∧
      NewDetectLocalByInterfaceNamePrefix "" =
        .error (.invalidConfig "no interface prefix set") :=
  ⟨(claim_C7 "").1.mpr rfl, (claim_C7 "").2.1.mpr rfl⟩

/-- C8: IsImplemented is true exactly on detectors other than the no-op
value: it is false on the result of NewNoOpLocalDetector and true on every
detector built by the three real constructors. -/
theorem claim_C8 (d : LocalTrafficDetector) :
    (IsImplemented d = true ↔ d ≠ NewNoOpLocalDetector) ∧
    IsImplemented NewNoOpLocalDetector = false ∧
    (((∃ c, NewDetectLocalByCIDR c = .ok d) ∨
      (∃ n, NewDetectLocalByBridgeInterface n = .ok d) ∨
      (∃ p, NewDetectLocalByInterfaceNamePrefix p = .ok d)) → IsImplemented d = true) := by
  refine ⟨?_, rfl, ?_⟩
  · cases d <;> simp [IsImplemented, NewNoOpLocalDetector]
  · rintro (⟨c, hc⟩ | ⟨n, hn⟩ | ⟨p, hp⟩)
    · obtain ⟨ip, parsed, -, hd⟩ := newDetectLocalByCIDR_ok hc
      subst hd; rfl
    · have hd := newDetectLocalByBridgeInterface_ok hn
      subst hd; rfl
    · have hd := newDetectLocalByIfaceNamePfx_ok hp
      subst hd; rfl

/-- Witness for C8: the no-op value is not implemented and a
bridge-interface detector is. -/
theorem claim_C8_witness :
    IsImplemented NewNoOpLocalDetector = false ∧
    IsImplemented (.byBridgeInterface ["-i", "cbr0"] ["!", "-i", "cbr0"]
      ["iif", "cbr0"] ["iif", "!=", "cbr0"]) = true :=
  ⟨(claim_C8 .noOp).2.1,
   (claim_C8 _).2.2 (Or.inr (Or.inl ⟨"cbr0", by rfl⟩))⟩

/-- C9: in state-passing form, every accessor call returns its receiver
unchanged, and a repeated call of the same accessor on the returned
receiver yields an identical result: the accessors are pure reads with no
hidden state drift. -/
theorem claim_C9 (d : LocalTrafficDetector) :
    (callIsImplemented d).2 = d ∧ (callIfLocal d).2 = d ∧ (callIfNotLocal d).2 = d ∧
    (callIfLocalNFT d).2 = d ∧ (callIfNotLocalNFT d).2 = d ∧
    (callIsImplemented (callIsImplemented d).2).1 = (callIsImplemented d).1 ∧
    (callIfLocal (callIfLocal d).2).1 = (callIfLocal d).1 ∧
    (callIfNotLocal (callIfNotLocal d).2).1 = (callIfNotLocal d).1 ∧
    (callIfLocalNFT (callIfLocalNFT d).2).1 = (callIfLocalNFT d).1 ∧
    (callIfNotLocalNFT (callIfNotLocalNFT d).2).1 = (callIfNotLocalNFT d).1 :=
  ⟨rfl, rfl, rfl, rfl, rfl, rfl, rfl, rfl, rfl, rfl⟩

/-- C10: the sloppy parse accepts inputs that are not canonical CIDR
notation, such as 10.0.0.1/8 whose address has host bits set beyond the
prefix length (the parsed address 10.0.0.1 differs from the masked network
10.0.0.0), and every accepted input is embedded verbatim as the final token
of all four sequences rather than the canonicalized network prefix. -/
theorem claim_C10 (cidr : String) (d : LocalTrafficDetector)
    (h : NewDetectLocalByCIDR cidr = .ok d) :
    ((IfLocal d).getLast? = some cidr ∧ (IfNotLocal d).getLast? = some cidr ∧
     (IfLocalNFT d).getLast? = some cidr ∧ (IfNotLocalNFT d).getLast? = some cidr) ∧
    (∃ ip parsed, parseCIDRSloppy "10.0.0.1/8" = some (ip, parsed) ∧
      to4 ip = some [10, 0, 0, 1] ∧ parsed.ip = [10, 0, 0, 0] ∧
      to4 ip ≠ some parsed.ip) := by
  obtain ⟨ip, parsed, -, hd⟩ := newDetectLocalByCIDR_ok h
  subst hd
  refine ⟨⟨rfl, rfl, rfl, rfl⟩, ?_⟩
  exact ⟨ipv4 10 0 0 1, ⟨[10, 0, 0, 0], [255, 0, 0, 0]⟩, by decide, by decide, rfl, by decide⟩

/-- Witness for C10 at the non-canonical input 10.0.0.1/8, which the sloppy
parse accepts and whose original text ends every token sequence. -/
theorem claim_C10_witness :
    ((IfLocal (.byCIDR ["-s", "10.0.0.1/8"] ["!", "-s", "10.0.0.1/8"]
        ["ip", "saddr", "10.0.0.1/8"] ["ip", "saddr", "!=", "10.0.0.1/8"])).getLast? =
        some "10.0.0.1/8" ∧
     (IfNotLocal (.byCIDR ["-s", "10.0.0.1/8"] ["!", "-s", "10.0.0.1/8"]
        ["ip", "saddr", "10.0.0.1/8"] ["ip", "saddr", "!=", "10.0.0.1/8"])).getLast? =
        some "10.0.0.1/8" ∧
     (IfLocalNFT (.byCIDR ["-s", "10.0.0.1/8"] ["!", "-s", "10.0.0.1/8"]
        ["ip", "saddr", "10.0.0.1/8"] ["ip", "saddr", "!=", "10.0.0.1/8"])).getLast? =
        some "10.0.0.1/8" ∧
     (IfNotLocalNFT (.byCIDR ["-s", "10.0.0.1/8"] ["!", "-s", "10.0.0.1/8"]
        ["ip", "saddr", "10.0.0.1/8"] ["ip", "saddr", "!=", "10.0.0.1/8"])).getLast? =
        some "10.0.0.1/8") ∧
    (∃ ip parsed, parseCIDRSloppy "10.0.0.1/8" = some (ip, parsed) ∧
      to4 ip = some [10, 0, 0, 1] ∧ parsed.ip = [10, 0, 0, 0] ∧
      to4 ip ≠ some parsed.ip) :=
  claim_C10 "10.0.0.1/8"
    (.byCIDR ["-s", "10.0.0.1/8"] ["!", "-s", "10.0.0.1/8"]
      ["ip", "saddr", "10.0.0.1/8"] ["ip", "saddr", "!=", "10.0.0.1/8"]) (by rfl)

end Traffic
